import Mathlib

/-!
Verification of the OTLP logs exporter's resilience core (status classifier,
backoff schedule, retry executor) and its SDK-facing facade.

The facade (`src/lib.rs`) is embedded from the source; the `retry` and `error`
modules are not present under `src/`, so their definitions are modelled from
the specification (§4.1–§4.3), pinned by the unit tests in `src/lib.rs`.
Errors are represented by their gRPC status code, the only part of a failure
the classifier inspects; the random jitter sample is an explicit input.
-/

namespace Otlp

/-- The gRPC status codes carried by a `tonic::Status` (the full tonic
`Code` enumeration). -/
inductive Code where
  | Ok
  | Cancelled
  | Unknown
  | InvalidArgument
  | DeadlineExceeded
  | NotFound
  | AlreadyExists
  | PermissionDenied
  | ResourceExhausted
  | FailedPrecondition
  | Aborted
  | OutOfRange
  | Unimplemented
  | Internal
  | Unavailable
  | DataLoss
  | Unauthenticated
  deriving DecidableEq, Repr

/-- The binary retry verdict (`retry::RetryErrorType`). -/
inductive RetryErrorType where
  | Retryable
  | NonRetryable
  deriving DecidableEq, Repr

/-- Modelled from the spec: `retry::classify_tonic_status` (the `retry`
module is not under `src/`). Maps a terminal RPC status code to a verdict
per the §4.1 table, with unmapped codes defaulting to `NonRetryable`;
the resource-exhausted case is the no-retry-hint case, as §4.1 directs.
The mapping agrees with the fifteen unit tests in `src/lib.rs`. -/
def classify_tonic_status (c : Code) : RetryErrorType :=
  match c with
  | .Unavailable => .Retryable
  | .DeadlineExceeded => .Retryable
  | .Cancelled => .Retryable
  | .OutOfRange => .Retryable
  | .DataLoss => .Retryable
  | _ => .NonRetryable

/-- The fifteen status codes enumerated in the §4.1 table. -/
def spec_table_codes : List Code :=
  [.Unavailable, .DeadlineExceeded, .Cancelled, .OutOfRange, .DataLoss,
   .InvalidArgument, .PermissionDenied, .Unauthenticated, .Internal,
   .ResourceExhausted, .NotFound, .AlreadyExists, .FailedPrecondition,
   .Unimplemented, .Unknown]

/-- `retry::RetryPolicy` (fields as in `src/lib.rs` lines 40–45; delays in
milliseconds, all fields unsigned integers). -/
structure RetryPolicy where
  max_retries : Nat
  initial_delay_ms : Nat
  max_delay_ms : Nat
  jitter_ms : Nat
  deriving DecidableEq, Repr

/-- The default policy constructed by `OtlpLogsExporter::with_default_retry`. -/
def default_retry_policy : RetryPolicy :=
  { max_retries := 3, initial_delay_ms := 100, max_delay_ms := 1600, jitter_ms := 100 }

/-- Modelled from the spec: the jitter-free component of the §4.2 backoff
schedule — exponential growth from `initial_delay` doubling per attempt,
capped at `max_delay`. -/
def backoff_base (policy : RetryPolicy) (n : Nat) : Nat :=
  min (policy.initial_delay_ms * 2 ^ n) policy.max_delay_ms

/-- Modelled from the spec: `backoff_delay` of §4.2. `j` is the random
jitter sample, drawn from `[0, jitter_ms]` and added after capping;
it is passed explicitly to keep the function pure. -/
def backoff_delay (policy : RetryPolicy) (n : Nat) (j : Nat) : Nat :=
  backoff_base policy n + j

/-- The observable trace of one run of the retry executor: the terminal
result, the number of attempts made, and the delays slept between
consecutive attempts. -/
structure ExecTrace (α : Type) where
  result : Except Code α
  attempts : Nat
  sleeps : List Nat
  deriving Repr

/-- Modelled from the spec: the loop body of `retry::export_with_retry`
(§4.3), with the remaining retry budget as explicit fuel. `call k` is the
outcome of invoking the RPC on attempt `k`; `jitter k` is the jitter sample
drawn before the sleep that follows attempt `k`. On success return
immediately; on a `NonRetryable` failure return it immediately; on a
`Retryable` failure sleep per the backoff schedule and loop while budget
remains, otherwise return the last observed failure. -/
def export_attempts {α : Type} (call : Nat → Except Code α) (policy : RetryPolicy)
    (jitter : Nat → Nat) : Nat → Nat → ExecTrace α
  | attempt, 0 =>
    match call attempt with
    | .ok a => ⟨.ok a, 1, []⟩
    | .error c =>
      match classify_tonic_status c with
      | .NonRetryable => ⟨.error c, 1, []⟩
      | .Retryable => ⟨.error c, 1, []⟩
  | attempt, fuel + 1 =>
    match call attempt with
    | .ok a => ⟨.ok a, 1, []⟩
    | .error c =>
      match classify_tonic_status c with
      | .NonRetryable => ⟨.error c, 1, []⟩
      | .Retryable =>
        let rest := export_attempts call policy jitter (attempt + 1) fuel
        ⟨rest.result, rest.attempts + 1,
         backoff_delay policy attempt (jitter attempt) :: rest.sleeps⟩

/-- Modelled from the spec: `retry::export_with_retry` — run the retry loop
from attempt 0 with a budget of `max_retries` further attempts. -/
def export_with_retry {α : Type} (call : Nat → Except Code α) (policy : RetryPolicy)
    (jitter : Nat → Nat) : ExecTrace α :=
  export_attempts call policy jitter 0 policy.max_retries

/-- The SDK error type returned by the facade (`OTelSdkError`), restricted
to the one variant `src/lib.rs` produces. -/
inductive OTelSdkError where
  | InternalFailure (msg : String)
  deriving DecidableEq, Repr

/-- Rust `Debug` rendering of a status code, standing in for the
`{error:?}` interpolation in `src/lib.rs` line 88. -/
def codeDebug : Code → String
  | .Ok => "Ok"
  | .Cancelled => "Cancelled"
  | .Unknown => "Unknown"
  | .InvalidArgument => "InvalidArgument"
  | .DeadlineExceeded => "DeadlineExceeded"
  | .NotFound => "NotFound"
  | .AlreadyExists => "AlreadyExists"
  | .PermissionDenied => "PermissionDenied"
  | .ResourceExhausted => "ResourceExhausted"
  | .FailedPrecondition => "FailedPrecondition"
  | .Aborted => "Aborted"
  | .OutOfRange => "OutOfRange"
  | .Unimplemented => "Unimplemented"
  | .Internal => "Internal"
  | .Unavailable => "Unavailable"
  | .DataLoss => "DataLoss"
  | .Unauthenticated => "Unauthenticated"

/-- `LogExporter::export` for `OtlpLogsExporter` (`src/lib.rs` lines 79–91),
after the grouping collaborator has produced the request: run the retry
executor and map its terminal result, wrapping a failure into
`OTelSdkError::InternalFailure` with the `"OTLP export error: {error:?}"`
message. (`export` is a reserved word in Lean, hence `facade_export`.) -/
def facade_export (call : Nat → Except Code Unit) (policy : RetryPolicy)
    (jitter : Nat → Nat) : Except OTelSdkError Unit :=
  match (export_with_retry call policy jitter).result with
  | .ok _ => .ok ()
  | .error e => .error (.InternalFailure ("OTLP export error: " ++ codeDebug e))

end Otlp

namespace Otlp

/-- C1: for each of the fifteen status codes enumerated in the §4.1 table,
`classify_tonic_status` returns exactly the listed verdict. -/
theorem classify_spec_table :
    classify_tonic_status .Unavailable = .Retryable ∧
    classify_tonic_status .DeadlineExceeded = .Retryable ∧
    classify_tonic_status .Cancelled = .Retryable ∧
    classify_tonic_status .OutOfRange = .Retryable ∧
    classify_tonic_status .DataLoss = .Retryable ∧
    classify_tonic_status .InvalidArgument = .NonRetryable ∧
    classify_tonic_status .PermissionDenied = .NonRetryable ∧
    classify_tonic_status .Unauthenticated = .NonRetryable ∧
    classify_tonic_status .Internal = .NonRetryable ∧
    classify_tonic_status .ResourceExhausted = .NonRetryable ∧
    classify_tonic_status .NotFound = .NonRetryable ∧
    classify_tonic_status .AlreadyExists = .NonRetryable ∧
    classify_tonic_status .FailedPrecondition = .NonRetryable ∧
    classify_tonic_status .Unimplemented = .NonRetryable ∧
    classify_tonic_status .Unknown = .NonRetryable := by
  decide

/-- C2: the classifier is total and deterministic — every status code maps
to exactly one verdict — and every code not listed in the §4.1 table maps
to `NonRetryable`. -/
theorem classify_total_default (c : Code) :
    (∃! v, classify_tonic_status c = v) ∧
    (c ∉ spec_table_codes → classify_tonic_status c = .NonRetryable) := by
  refine ⟨⟨classify_tonic_status c, rfl, fun v hv => hv.symm⟩, ?_⟩
  cases c <;> decide

/-- Witness for C2, at the unmapped code `Aborted`. -/
theorem classify_total_default_witness :
    (∃! v, classify_tonic_status .Aborted = v) ∧
    classify_tonic_status .Aborted = .NonRetryable :=
  ⟨(classify_total_default .Aborted).1,
   (classify_total_default .Aborted).2 (by decide)⟩

/-- C7: for every attempt index and valid policy, with the jitter sample
drawn from `[0, jitter_ms]`, the computed delay is never negative and never
exceeds `max_delay + jitter`. -/
theorem backoff_delay_bounds (policy : RetryPolicy) (n j : Nat)
    (h : j ≤ policy.jitter_ms) :
    0 ≤ backoff_delay policy n j ∧
    backoff_delay policy n j ≤ policy.max_delay_ms + policy.jitter_ms := by
  refine ⟨Nat.zero_le _, ?_⟩
  have hbase : backoff_base policy n ≤ policy.max_delay_ms :=
    min_le_right _ _
  exact Nat.add_le_add hbase h

/-- Witness for C7, at the default policy, attempt 5, jitter sample 50. -/
theorem backoff_delay_bounds_witness :
    50 ≤ default_retry_policy.jitter_ms ∧
    (0 ≤ backoff_delay default_retry_policy 5 50 ∧
     backoff_delay default_retry_policy 5 50 ≤
       default_retry_policy.max_delay_ms + default_retry_policy.jitter_ms) :=
  ⟨by decide, backoff_delay_bounds default_retry_policy 5 50 (by decide)⟩

/-- C8: the delay is the exponentially growing jitter-free component —
`initial_delay` doubled per attempt, capped at `max_delay` — with the
jitter sample added after capping; the jitter-free component is
non-decreasing in the attempt index and, once the uncapped value reaches
`max_delay`, saturates at `max_delay`. -/
theorem backoff_exponential_capped (policy : RetryPolicy) (n j : Nat) :
    backoff_delay policy n j =
      min (policy.initial_delay_ms * 2 ^ n) policy.max_delay_ms + j ∧
    backoff_base policy n ≤ backoff_base policy (n + 1) ∧
    (policy.max_delay_ms ≤ policy.initial_delay_ms * 2 ^ n →
      backoff_base policy n = policy.max_delay_ms) := by
  refine ⟨rfl, ?_, fun h => min_eq_right h⟩
  have hgrow : policy.initial_delay_ms * 2 ^ n ≤
      policy.initial_delay_ms * 2 ^ (n + 1) :=
    Nat.mul_le_mul_left _ (Nat.pow_le_pow_right (by decide) (Nat.le_succ n))
  exact min_le_min hgrow le_rfl

/-- Witness for C8, at the default policy and attempt 5, where the uncapped
value 100·2⁵ = 3200 has passed `max_delay = 1600`. -/
theorem backoff_exponential_capped_witness :
    backoff_delay default_retry_policy 5 7 =
      min (default_retry_policy.initial_delay_ms * 2 ^ 5)
        default_retry_policy.max_delay_ms + 7 ∧
    backoff_base default_retry_policy 5 ≤ backoff_base default_retry_policy 6 ∧
    backoff_base default_retry_policy 5 = default_retry_policy.max_delay_ms :=
  ⟨(backoff_exponential_capped default_retry_policy 5 7).1,
   (backoff_exponential_capped default_retry_policy 5 7).2.1,
   (backoff_exponential_capped default_retry_policy 5 7).2.2 (by decide)⟩

/-- Helper: whenever the call succeeds at the current attempt, the executor
stops immediately with that success, whatever budget remains. -/
theorem export_attempts_ok {α : Type} (call : Nat → Except Code α)
    (policy : RetryPolicy) (jitter : Nat → Nat) (a fuel : Nat) (x : α)
    (h : call a = .ok x) :
    export_attempts call policy jitter a fuel = ⟨.ok x, 1, []⟩ := by
  cases fuel <;> simp [export_attempts, h]

/-- Helper: the executor makes between 1 and `fuel + 1` attempts, and its
terminal result is exactly the outcome the call produced on the last
attempt performed. -/
theorem export_attempts_terminal {α : Type} (call : Nat → Except Code α)
    (policy : RetryPolicy) (jitter : Nat → Nat) (a fuel : Nat) :
    1 ≤ (export_attempts call policy jitter a fuel).attempts ∧
    (export_attempts call policy jitter a fuel).attempts ≤ fuel + 1 ∧
    ((∃ x, (export_attempts call policy jitter a fuel).result = .ok x ∧
        call (a + ((export_attempts call policy jitter a fuel).attempts - 1)) = .ok x) ∨
     (∃ c, (export_attempts call policy jitter a fuel).result = .error c ∧
        call (a + ((export_attempts call policy jitter a fuel).attempts - 1)) = .error c)) := by
  induction fuel generalizing a with
  | zero =>
    cases hc : call a with
    | ok x => simp [export_attempts, hc]
    | error c =>
      cases hr : classify_tonic_status c <;> simp [export_attempts, hc, hr]
  | succ f ih =>
    cases hc : call a with
    | ok x => simp [export_attempts, hc]
    | error c =>
      cases hr : classify_tonic_status c with
      | NonRetryable => simp [export_attempts, hc, hr]
      | Retryable =>
        obtain ⟨ih1, ih2, ih3⟩ := ih (a + 1)
        simp only [export_attempts, hc, hr]
        refine ⟨by omega, by omega, ?_⟩
        have harith : a + ((export_attempts call policy jitter (a + 1) f).attempts + 1 - 1) =
            a + 1 + ((export_attempts call policy jitter (a + 1) f).attempts - 1) := by
          omega
        rcases ih3 with ⟨x, hres, hcall⟩ | ⟨e, hres, hcall⟩
        · exact Or.inl ⟨x, hres, by rw [harith]; exact hcall⟩
        · exact Or.inr ⟨e, hres, by rw [harith]; exact hcall⟩

/-- C3: for a call that fails with a `Retryable` classification on every
invocation and a policy with `max_retries = 3`, the executor makes exactly
4 attempts, sleeps per the backoff schedule between consecutive attempts
(three sleeps, for attempts 0, 1 and 2), and returns the failure observed
on the last attempt. -/
theorem export_retryable_exhausts_budget {α : Type} (call : Nat → Except Code α)
    (policy : RetryPolicy) (jitter : Nat → Nat)
    (hmax : policy.max_retries = 3)
    (h : ∀ n, ∃ c, call n = .error c ∧ classify_tonic_status c = .Retryable) :
    (export_with_retry call policy jitter).attempts = 4 ∧
    (export_with_retry call policy jitter).sleeps =
      [backoff_delay policy 0 (jitter 0), backoff_delay policy 1 (jitter 1),
       backoff_delay policy 2 (jitter 2)] ∧
    ∃ c, call 3 = .error c ∧
      (export_with_retry call policy jitter).result = .error c := by
  obtain ⟨c0, hc0, hr0⟩ := h 0
  obtain ⟨c1, hc1, hr1⟩ := h 1
  obtain ⟨c2, hc2, hr2⟩ := h 2
  obtain ⟨c3, hc3, hr3⟩ := h 3
  refine ⟨?_, ?_, c3, hc3, ?_⟩ <;>
    simp [export_with_retry, hmax, export_attempts, hc0, hr0, hc1, hr1,
      hc2, hr2, hc3, hr3]

/-- Witness for C3: a call that always fails `Unavailable` under the default
policy (whose `max_retries` is 3) with zero jitter samples. -/
theorem export_retryable_exhausts_budget_witness :
    (export_with_retry (fun _ => (Except.error Code.Unavailable : Except Code Unit))
      default_retry_policy (fun _ => 0)).attempts = 4 ∧
    (export_with_retry (fun _ => (Except.error Code.Unavailable : Except Code Unit))
      default_retry_policy (fun _ => 0)).sleeps =
      [backoff_delay default_retry_policy 0 0, backoff_delay default_retry_policy 1 0,
       backoff_delay default_retry_policy 2 0] ∧
    ∃ c, (fun _ => (Except.error Code.Unavailable : Except Code Unit)) 3 = .error c ∧
      (export_with_retry (fun _ => (Except.error Code.Unavailable : Except Code Unit))
        default_retry_policy (fun _ => 0)).result = .error c :=
  export_retryable_exhausts_budget (fun _ => .error .Unavailable)
    default_retry_policy (fun _ => 0) rfl (fun _ => ⟨.Unavailable, rfl, rfl⟩)

/-- C4: if the first invocation fails with a `NonRetryable` classification,
the executor makes exactly one attempt, sleeps never, and returns that
failure, for every retry budget. -/
theorem export_nonretryable_immediate {α : Type} (call : Nat → Except Code α)
    (policy : RetryPolicy) (jitter : Nat → Nat) (c : Code)
    (h1 : call 0 = .error c)
    (h2 : classify_tonic_status c = .NonRetryable) :
    (export_with_retry call policy jitter).attempts = 1 ∧
    (export_with_retry call policy jitter).result = .error c ∧
    (export_with_retry call policy jitter).sleeps = [] := by
  unfold export_with_retry
  cases policy.max_retries <;> simp [export_attempts, h1, h2]

/-- Witness for C4: a call that fails `InvalidArgument` at once, under the
default policy. -/
theorem export_nonretryable_immediate_witness :
    (export_with_retry (fun _ => (Except.error Code.InvalidArgument : Except Code Unit))
      default_retry_policy (fun _ => 0)).attempts = 1 ∧
    (export_with_retry (fun _ => (Except.error Code.InvalidArgument : Except Code Unit))
      default_retry_policy (fun _ => 0)).result = .error .InvalidArgument ∧
    (export_with_retry (fun _ => (Except.error Code.InvalidArgument : Except Code Unit))
      default_retry_policy (fun _ => 0)).sleeps = [] :=
  export_nonretryable_immediate (fun _ => .error .InvalidArgument)
    default_retry_policy (fun _ => 0) .InvalidArgument rfl rfl

/-- C5: if the call fails with `Retryable` classification on attempts 0 and
1 and succeeds on attempt 2, then for every policy with `max_retries ≥ 2`
the executor returns that success after exactly 3 attempts, sleeping twice,
and performs no further invocations after the success. -/
theorem export_succeeds_on_third {α : Type} (call : Nat → Except Code α)
    (policy : RetryPolicy) (jitter : Nat → Nat) (x : α)
    (h0 : ∃ c, call 0 = .error c ∧ classify_tonic_status c = .Retryable)
    (h1 : ∃ c, call 1 = .error c ∧ classify_tonic_status c = .Retryable)
    (h2 : call 2 = .ok x)
    (hm : 2 ≤ policy.max_retries) :
    (export_with_retry call policy jitter).result = .ok x ∧
    (export_with_retry call policy jitter).attempts = 3 ∧
    (export_with_retry call policy jitter).sleeps =
      [backoff_delay policy 0 (jitter 0), backoff_delay policy 1 (jitter 1)] := by
  obtain ⟨c0, hc0, hr0⟩ := h0
  obtain ⟨c1, hc1, hr1⟩ := h1
  obtain ⟨k, hk⟩ : ∃ k, policy.max_retries = k + 2 := ⟨policy.max_retries - 2, by omega⟩
  refine ⟨?_, ?_, ?_⟩ <;>
    simp [export_with_retry, hk, export_attempts, hc0, hr0, hc1, hr1,
      export_attempts_ok call policy jitter 2 k x h2]

/-- Witness for C5: a call that fails `Unavailable` twice and then succeeds,
under the default policy. -/
theorem export_succeeds_on_third_witness :
    (export_with_retry
      (fun n => if n < 2 then (Except.error Code.Unavailable : Except Code Unit)
                else .ok ())
      default_retry_policy (fun _ => 0)).result = .ok () ∧
    (export_with_retry
      (fun n => if n < 2 then (Except.error Code.Unavailable : Except Code Unit)
                else .ok ())
      default_retry_policy (fun _ => 0)).attempts = 3 ∧
    (export_with_retry
      (fun n => if n < 2 then (Except.error Code.Unavailable : Except Code Unit)
                else .ok ())
      default_retry_policy (fun _ => 0)).sleeps =
      [backoff_delay default_retry_policy 0 0, backoff_delay default_retry_policy 1 0] :=
  export_succeeds_on_third
    (fun n => if n < 2 then .error .Unavailable else .ok ())
    default_retry_policy (fun _ => 0) ()
    ⟨.Unavailable, rfl, rfl⟩ ⟨.Unavailable, rfl, rfl⟩ rfl (by decide)

/-- C6: every export operation terminates — for every call and policy the
executor makes between 1 and `max_retries + 1` attempts, and reaches
exactly one terminal state: either a success, or a failure, in each case
the very outcome the call produced on its last attempt (so a final failure
is the last classified error — either the one that exhausted the budget or
an immediate non-retryable one — never an invented or swallowed result). -/
theorem export_with_retry_terminates {α : Type} (call : Nat → Except Code α)
    (policy : RetryPolicy) (jitter : Nat → Nat) :
    1 ≤ (export_with_retry call policy jitter).attempts ∧
    (export_with_retry call policy jitter).attempts ≤ policy.max_retries + 1 ∧
    ¬(∃ x c, (export_with_retry call policy jitter).result = .ok x ∧
        (export_with_retry call policy jitter).result = .error c) ∧
    ((∃ x, (export_with_retry call policy jitter).result = .ok x ∧
        call ((export_with_retry call policy jitter).attempts - 1) = .ok x) ∨
     (∃ c, (export_with_retry call policy jitter).result = .error c ∧
        call ((export_with_retry call policy jitter).attempts - 1) = .error c)) := by
  obtain ⟨h1, h2, h3⟩ :=
    export_attempts_terminal call policy jitter 0 policy.max_retries
  refine ⟨h1, h2, ?_, by simpa [export_with_retry] using h3⟩
  rintro ⟨x, c, hok, herr⟩
  rw [hok] at herr
  cases herr

/-- C9: the facade returns `Ok(())` exactly when the retry executor
succeeds, and on any terminal executor failure returns
`OTelSdkError::InternalFailure` wrapping the descriptive
`"OTLP export error: ..."` message that includes the underlying error;
this single terminal outcome is all that crosses the caller boundary. -/
theorem facade_export_wraps (call : Nat → Except Code Unit)
    (policy : RetryPolicy) (jitter : Nat → Nat) :
    (facade_export call policy jitter = .ok () ↔
      (export_with_retry call policy jitter).result = .ok ()) ∧
    (∀ c, (export_with_retry call policy jitter).result = .error c →
      facade_export call policy jitter =
        .error (.InternalFailure ("OTLP export error: " ++ codeDebug c))) := by
  cases h : (export_with_retry call policy jitter).result with
  | ok a =>
    refine ⟨?_, ?_⟩
    · simp [facade_export, h]
    · intro c hc
      simp at hc
  | error e =>
    refine ⟨?_, ?_⟩
    · constructor
      · intro hfe
        simp [facade_export, h] at hfe
      · intro hr
        simp at hr
    · intro c hc
      injection hc with he
      subst he
      simp [facade_export, h]

/-- Witness for C9: a call that fails `Internal` (non-retryable) at once,
under the default policy. -/
theorem facade_export_wraps_witness :
    facade_export (fun _ => .error .Internal) default_retry_policy (fun _ => 0) =
      .error (.InternalFailure ("OTLP export error: " ++ codeDebug .Internal)) :=
  (facade_export_wraps (fun _ => .error .Internal) default_retry_policy
    (fun _ => 0)).2 .Internal rfl

end Otlp
